import Mathlib

/-!
# Theme management system (src/main.js)

A shallow embedding of the theme controller of `src/main.js`.  The script is a
single immediately-invoked function that reads and writes four pieces of
browser state: the `data-theme` attribute of the root element, the
`meta[name="theme-color"]` element, the `.hero__theme-toggle` button, and one
`localStorage` key.  Each JavaScript function becomes a Lean function on an
explicit `State`; `try`/`catch` becomes a `match` on an `Except` value, and a
call that is not wrapped in `try`/`catch` lets the error escape in an `Outcome`.
-/

namespace ThemeSystem

/-! ## Configuration (`CONFIG`, lines 11-22) -/

/-- The value `CONFIG.themes.DARK`. -/
def DARK : String := "dark"

/-- The value `CONFIG.themes.LIGHT`. -/
def LIGHT : String := "light"

/-- The value `CONFIG.metaThemeColor.dark`. -/
def metaDark : String := "#060641"

/-- The value `CONFIG.metaThemeColor.light`. -/
def metaLight : String := "#f5f7fa"

/-! ## Browser state -/

/-- The `localStorage` entry under `CONFIG.storageKey`, together with the three
ways the host can make an access throw (privacy mode, disabled storage, quota). -/
structure Storage where
  /-- The string stored under the key, `none` when the key is missing. -/
  item : Option String
  /-- Reading with `getItem` throws. -/
  getThrows : Bool
  /-- Writing with `setItem` throws. -/
  setThrows : Bool
  /-- Deleting with `removeItem` throws. -/
  removeThrows : Bool
deriving DecidableEq, Repr

/-- The toggle button's two ARIA attributes (`none` = attribute not set). -/
structure ThemeButton where
  ariaPressed : Option String
  ariaLabel : Option String
deriving DecidableEq, Repr

/-- The object returned by `window.matchMedia('(prefers-color-scheme: dark)')`. -/
structure MediaQueryList where
  /-- The field `matches` (a reserved word here): the system currently prefers
  dark. -/
  isMatch : Bool
  /-- The object has the modern `addEventListener` method. -/
  hasAddEventListener : Bool
  /-- The object has the legacy `addListener` method. -/
  hasAddListener : Bool
deriving DecidableEq, Repr

/-- Everything the script reads or writes. -/
structure State where
  /-- The attribute `data-theme` of `document.documentElement`. -/
  themeAttr : Option String
  /-- The inline style `root.style.transition`. -/
  rootTransition : String
  /-- The element `meta[name="theme-color"]`: `none` when the page has none,
  otherwise its `content` attribute. -/
  metaThemeColor : Option (Option String)
  /-- The element `.hero__theme-toggle`, `none` when the page has none. -/
  themeButton : Option ThemeButton
  /-- The `localStorage` entry. -/
  storage : Storage
  /-- The media query list, `none` when `window.matchMedia` is undefined. -/
  matchMedia : Option MediaQueryList
  /-- The change callback has been registered on the media query list. -/
  changeListener : Bool
  /-- The `detail.theme` of every `themechange` event dispatched so far,
  oldest first. -/
  events : List String
  /-- The messages passed to `console.warn` so far, oldest first. -/
  warnings : List String
  /-- The properties an object literal inherits from `Object.prototype`
  (`constructor`, `toString`, ...), each with the string the host renders it
  to.  They are all functions or objects, hence truthy. -/
  inheritedProps : List (String × String)
deriving DecidableEq, Repr

/-- A JavaScript value handed to the public `setTheme`. -/
inductive JsValue where
  | undefined
  | null
  | bool (b : Bool)
  | number (n : Int)
  | string (s : String)
deriving DecidableEq, Repr

/-- The result of a call that may let an exception escape: the state it leaves
behind and the escaped error, if any. -/
structure Outcome where
  state : State
  error : Option String
deriving DecidableEq, Repr

/-! ## `localStorage` primitives -/

/-- The call `localStorage.getItem(CONFIG.storageKey)`. -/
def Storage.getItem (st : Storage) : Except String (Option String) :=
  if st.getThrows then .error "SecurityError" else .ok st.item

/-- The call `localStorage.setItem(CONFIG.storageKey, value)`. -/
def Storage.setItem (value : String) (st : Storage) : Except String Storage :=
  if st.setThrows then .error "QuotaExceededError" else .ok { st with item := some value }

/-- The call `localStorage.removeItem(CONFIG.storageKey)`. -/
def Storage.removeItem (st : Storage) : Except String Storage :=
  if st.removeThrows then .error "SecurityError" else .ok { st with item := none }

/-! ## The functions of `src/main.js` -/

/-- JavaScript truthiness of a value that is a string or `null`: only `null`
and the empty string are falsy. -/
def truthy : Option String → Bool
  | none => false
  | some v => v ≠ ""

/-- The expression `a || b` for `a` a string or `null` and `b` a string. -/
def jsOr (a : Option String) (b : String) : String :=
  match a with
  | some v => if truthy (some v) then v else b
  | none => b

/-- Source `getSystemThemePreference` (lines 31-36). -/
def getSystemThemePreference (s : State) : String :=
  match s.matchMedia with
  | some q => if q.isMatch then DARK else LIGHT
  | none => LIGHT

/-- Source `getStoredTheme` (lines 42-49): the stored string, or `null` with a
console warning when the read throws. -/
def getStoredTheme (s : State) : Option String × State :=
  match s.storage.getItem with
  | .ok v => (v, s)
  | .error _ => (none, { s with warnings := s.warnings ++ ["Unable to access localStorage:"] })

/-- Source `storeTheme` (lines 55-61): writes the key, or warns when the write
throws. -/
def storeTheme (theme : String) (s : State) : State :=
  match s.storage.setItem theme with
  | .ok st => { s with storage := st }
  | .error _ => { s with warnings := s.warnings ++ ["Unable to save theme preference:"] }

/-- The expression `CONFIG.metaThemeColor[theme] || CONFIG.metaThemeColor.dark`
(line 72): the two own keys first, then the inherited properties, then the
dark colour. -/
def metaColorFor (s : State) (theme : String) : String :=
  if theme = "dark" then metaDark
  else if theme = "light" then metaLight
  else match s.inheritedProps.lookup theme with
    | some rendered => rendered
    | none => metaDark

/-- Source `updateMetaThemeColor` (lines 67-75). -/
def updateMetaThemeColor (theme : String) (s : State) : State :=
  match s.metaThemeColor with
  | some _ => { s with metaThemeColor := some (some (metaColorFor s theme)) }
  | none => s

/-- Source `updateThemeButtonAria` (lines 81-91). -/
def updateThemeButtonAria (theme : String) (s : State) : State :=
  match s.themeButton with
  | some _ =>
    let isDark : Bool := theme = DARK
    let pressed : String := if isDark then "true" else "false"
    let label : String := "Switch to " ++ (if isDark then "light" else "dark") ++ " theme"
    { s with themeButton := some { ariaPressed := some pressed, ariaLabel := some label } }
  | none => s

/-- Source `applyTheme` (lines 98-127). -/
def applyTheme (theme : String) (skipTransition : Bool) (s : State) : State :=
  let s1 := if skipTransition then { s with rootTransition := "none" } else s
  let s2 := { s1 with themeAttr := some theme }
  let s3 := updateMetaThemeColor theme s2
  let s4 := updateThemeButtonAria theme s3
  let s5 := storeTheme theme s4
  let s6 := if skipTransition then { s5 with rootTransition := "" } else s5
  { s6 with events := s6.events ++ [theme] }

/-- Source `initializeTheme` (lines 132-139). -/
def initializeTheme (s : State) : State :=
  let (storedTheme, s1) := getStoredTheme s
  let systemTheme := getSystemThemePreference s1
  let initialTheme := jsOr storedTheme systemTheme
  applyTheme initialTheme true s1

/-- Source `toggleTheme` (lines 144-151). -/
def toggleTheme (s : State) : State :=
  let currentTheme := s.themeAttr
  let newTheme := if currentTheme = some DARK then LIGHT else DARK
  applyTheme newTheme false s

/-- The callback registered by `watchSystemThemeChanges` (lines 163-169, and
with the same body lines 173-178); `eventMatches` is `event.matches`. -/
def systemThemeChangeListener (eventMatches : Bool) (s : State) : State :=
  let (storedTheme, s1) := getStoredTheme s
  if !truthy storedTheme then
    let newTheme := if eventMatches then DARK else LIGHT
    applyTheme newTheme false s1
  else s1

/-- Source `watchSystemThemeChanges` (lines 156-180): registers the callback
when the media query list exists and offers one of the two registration
methods. -/
def watchSystemThemeChanges (s : State) : State :=
  match s.matchMedia with
  | none => s
  | some q =>
    if q.hasAddEventListener then { s with changeListener := true }
    else if q.hasAddListener then { s with changeListener := true }
    else s

/-- The body of `initThemeSystem` that touches the state (lines 194-195): the
initial theme is applied, then the system listener is installed. -/
def initThemeSystem (s : State) : State :=
  watchSystemThemeChanges (initializeTheme s)

/-- The system flips its colour-scheme preference: the media query list takes
the new `matches` value and the registered callback, if any, runs with it. -/
def systemPreferenceChange (nowDark : Bool) (s : State) : State :=
  match s.matchMedia with
  | none => s
  | some q =>
    let s1 := { s with matchMedia := some { q with isMatch := nowDark } }
    if s1.changeListener then systemThemeChangeListener nowDark s1 else s1

/-- Source `themeSystem.getCurrentTheme` (line 205). -/
def getCurrentTheme (s : State) : Option String :=
  s.themeAttr

/-- The array `Object.values(CONFIG.themes)`. -/
def themeValues : List JsValue :=
  [JsValue.string DARK, JsValue.string LIGHT]

/-- Source `themeSystem.setTheme` (lines 206-210). -/
def setTheme (theme : JsValue) (s : State) : State :=
  if themeValues.contains theme then
    match theme with
    | JsValue.string t => applyTheme t false s
    | _ => s
  else s

/-- Source `themeSystem.resetToSystemTheme` (lines 211-214).  The call to
`removeItem` is the first statement and is not inside a `try`: when it throws,
the error escapes and nothing has been changed. -/
def resetToSystemTheme (s : State) : Outcome :=
  match s.storage.removeItem with
  | .error e => { state := s, error := some e }
  | .ok st =>
    let s1 := { s with storage := st }
    { state := applyTheme (getSystemThemePreference s1) false s1, error := none }

/-! ## Sequences of operations -/

/-- The operations that can follow initialisation. -/
inductive Op where
  | toggle
  | setTheme (theme : JsValue)
  | resetToSystemTheme
  | systemChange (nowDark : Bool)
deriving DecidableEq, Repr

/-- One operation; only `resetToSystemTheme` can let an error escape. -/
def step (op : Op) (s : State) : Outcome :=
  match op with
  | Op.toggle => { state := toggleTheme s, error := none }
  | Op.setTheme v => { state := setTheme v s, error := none }
  | Op.resetToSystemTheme => resetToSystemTheme s
  | Op.systemChange d => { state := systemPreferenceChange d s, error := none }

/-- Runs the operations in order; an escaped error ends one handler, not the
page, so the next operation starts from the state that was left behind. -/
def run (ops : List Op) (s : State) : State :=
  ops.foldl (fun acc op => (step op acc).state) s

/-- The attribute holds one of the two enumerated themes. -/
def IsTheme (a : Option String) : Prop :=
  a = some DARK ∨ a = some LIGHT

instance (a : Option String) : Decidable (IsTheme a) := by
  unfold IsTheme; infer_instance

/-- A store on which every access succeeds. -/
def Storage.working (st : Storage) : Prop :=
  st.getThrows = false ∧ st.setThrows = false ∧ st.removeThrows = false

instance (st : Storage) : Decidable st.working := by
  unfold Storage.working; infer_instance

/-- A store on which every access throws. -/
def Storage.broken (st : Storage) : Prop :=
  st.getThrows = true ∧ st.setThrows = true ∧ st.removeThrows = true

instance (st : Storage) : Decidable st.broken := by
  unfold Storage.broken; infer_instance

/-- A page right after load: no theme attribute yet, a meta tag, a button, an
empty working store, a system that prefers light, no listener yet. -/
def freshPage : State :=
  { themeAttr := none
    rootTransition := ""
    metaThemeColor := some none
    themeButton := some { ariaPressed := none, ariaLabel := none }
    storage := { item := none, getThrows := false, setThrows := false, removeThrows := false }
    matchMedia := some { isMatch := false, hasAddEventListener := true, hasAddListener := true }
    changeListener := false
    events := []
    warnings := []
    inheritedProps := [] }


/-! ## Concrete pages -/

/-- A page whose store rejects every write (quota exhausted). -/
def fullStorePage : State :=
  { freshPage with
    storage := { item := some "light", getThrows := false, setThrows := true,
                 removeThrows := false } }

/-- A page whose store holds the empty string under the key, on a system that
prefers dark, with the listener registered. -/
def emptyStringStoredPage : State :=
  { freshPage with
    themeAttr := some "light"
    storage := { item := some "", getThrows := false, setThrows := false,
                 removeThrows := false }
    matchMedia := some { isMatch := true, hasAddEventListener := true, hasAddListener := true }
    changeListener := true }

/-- A page whose store holds light but throws on every read, on a system that
prefers dark, with the listener registered. -/
def unreadableStorePage : State :=
  { freshPage with
    themeAttr := some "light"
    storage := { item := some "light", getThrows := true, setThrows := false,
                 removeThrows := false }
    matchMedia := some { isMatch := true, hasAddEventListener := true, hasAddListener := true }
    changeListener := true }

/-- A page whose store holds light, on a system that prefers dark. -/
def lightStoredPage : State :=
  { freshPage with
    storage := { item := some "light", getThrows := false, setThrows := false,
                 removeThrows := false }
    matchMedia := some { isMatch := true, hasAddEventListener := true, hasAddListener := true } }

/-- A page with an empty store, on a system that prefers dark. -/
def systemDarkPage : State :=
  { freshPage with
    matchMedia := some { isMatch := true, hasAddEventListener := true, hasAddListener := true } }

/-- A page whose store holds a string outside the enumeration. -/
def purpleStoredPage : State :=
  { freshPage with
    storage := { item := some "purple", getThrows := false, setThrows := false,
                 removeThrows := false } }

/-- A page whose store throws on every access. -/
def brokenStorePage : State :=
  { freshPage with
    storage := { item := none, getThrows := true, setThrows := true, removeThrows := true } }

/-- The page with the throwing store after initialisation, a system change to
dark and one toggle: the attribute is light while the system prefers dark. -/
def brokenStoreLightPage : State :=
  run [Op.systemChange true, Op.toggle] (initThemeSystem brokenStorePage)

/-- The page as initialised, after the key was cleared from outside (another
tab, the developer tools): empty working store, listener registered. -/
def clearedStorePage : State :=
  { initThemeSystem freshPage with
    storage := { item := none, getThrows := false, setThrows := false, removeThrows := false } }

/-! ## Basic facts about `applyTheme` -/

theorem storeTheme_themeAttr (t : String) (s : State) :
    (storeTheme t s).themeAttr = s.themeAttr := by
  unfold storeTheme; split <;> rfl

theorem storeTheme_events (t : String) (s : State) :
    (storeTheme t s).events = s.events := by
  unfold storeTheme; split <;> rfl

theorem updateMetaThemeColor_themeAttr (t : String) (s : State) :
    (updateMetaThemeColor t s).themeAttr = s.themeAttr := by
  unfold updateMetaThemeColor; split <;> rfl

theorem updateMetaThemeColor_events (t : String) (s : State) :
    (updateMetaThemeColor t s).events = s.events := by
  unfold updateMetaThemeColor; split <;> rfl

theorem updateThemeButtonAria_themeAttr (t : String) (s : State) :
    (updateThemeButtonAria t s).themeAttr = s.themeAttr := by
  unfold updateThemeButtonAria; split <;> rfl

theorem updateThemeButtonAria_events (t : String) (s : State) :
    (updateThemeButtonAria t s).events = s.events := by
  unfold updateThemeButtonAria; split <;> rfl

theorem applyTheme_themeAttr (t : String) (skip : Bool) (s : State) :
    (applyTheme t skip s).themeAttr = some t := by
  cases skip <;>
    simp [applyTheme, storeTheme_themeAttr, updateThemeButtonAria_themeAttr,
      updateMetaThemeColor_themeAttr]

theorem applyTheme_events (t : String) (skip : Bool) (s : State) :
    (applyTheme t skip s).events = s.events ++ [t] := by
  cases skip <;>
    simp [applyTheme, storeTheme_events, updateThemeButtonAria_events,
      updateMetaThemeColor_events]

theorem applyTheme_storage (t : String) (skip : Bool) (s : State) :
    (applyTheme t skip s).storage =
      if s.storage.setThrows then s.storage else { s.storage with item := some t } := by
  cases hm : s.metaThemeColor <;> cases hb : s.themeButton <;> cases skip <;>
    cases hw : s.storage.setThrows <;>
    simp [applyTheme, storeTheme, updateThemeButtonAria, updateMetaThemeColor,
      Storage.setItem, hm, hb, hw]

/-! ## Basic facts about reading the store and the callers of `applyTheme` -/

theorem getStoredTheme_fst (s : State) :
    (getStoredTheme s).1 = if s.storage.getThrows then none else s.storage.item := by
  unfold getStoredTheme Storage.getItem
  cases s.storage.getThrows <;> rfl

theorem getStoredTheme_snd (s : State) :
    (getStoredTheme s).2 =
      if s.storage.getThrows then
        { s with warnings := s.warnings ++ ["Unable to access localStorage:"] }
      else s := by
  unfold getStoredTheme Storage.getItem
  cases s.storage.getThrows <;> rfl

theorem getStoredTheme_snd_themeAttr (s : State) :
    (getStoredTheme s).2.themeAttr = s.themeAttr := by
  rw [getStoredTheme_snd]; split <;> rfl

theorem getStoredTheme_snd_events (s : State) :
    (getStoredTheme s).2.events = s.events := by
  rw [getStoredTheme_snd]; split <;> rfl

theorem getStoredTheme_snd_matchMedia (s : State) :
    (getStoredTheme s).2.matchMedia = s.matchMedia := by
  rw [getStoredTheme_snd]; split <;> rfl

theorem getSystemThemePreference_getStoredTheme (s : State) :
    getSystemThemePreference (getStoredTheme s).2 = getSystemThemePreference s := by
  unfold getSystemThemePreference; rw [getStoredTheme_snd_matchMedia]

theorem initializeTheme_eq (s : State) :
    initializeTheme s =
      applyTheme (jsOr (getStoredTheme s).1 (getSystemThemePreference s)) true
        (getStoredTheme s).2 := by
  unfold initializeTheme
  rw [← getSystemThemePreference_getStoredTheme s]

theorem systemThemeChangeListener_eq (m : Bool) (s : State) :
    systemThemeChangeListener m s =
      if truthy (getStoredTheme s).1 then (getStoredTheme s).2
      else applyTheme (if m then DARK else LIGHT) false (getStoredTheme s).2 := by
  unfold systemThemeChangeListener
  cases h : truthy (getStoredTheme s).1 <;> simp [h]

theorem watchSystemThemeChanges_themeAttr (s : State) :
    (watchSystemThemeChanges s).themeAttr = s.themeAttr := by
  unfold watchSystemThemeChanges
  split
  · rfl
  · split
    · rfl
    · split <;> rfl

theorem watchSystemThemeChanges_events (s : State) :
    (watchSystemThemeChanges s).events = s.events := by
  unfold watchSystemThemeChanges
  split
  · rfl
  · split
    · rfl
    · split <;> rfl

theorem initThemeSystem_themeAttr (s : State) :
    (initThemeSystem s).themeAttr =
      some (jsOr (getStoredTheme s).1 (getSystemThemePreference s)) := by
  unfold initThemeSystem
  rw [watchSystemThemeChanges_themeAttr, initializeTheme_eq, applyTheme_themeAttr]

theorem initThemeSystem_events (s : State) :
    (initThemeSystem s).events =
      s.events ++ [jsOr (getStoredTheme s).1 (getSystemThemePreference s)] := by
  unfold initThemeSystem
  rw [watchSystemThemeChanges_events, initializeTheme_eq, applyTheme_events,
    getStoredTheme_snd_events]

/-! ## What the store read yields -/

theorem jsOr_getStoredTheme_of_readable (s : State) (v : String)
    (hg : s.storage.getThrows = false) (hv : s.storage.item = some v) (hne : v ≠ "") :
    jsOr (getStoredTheme s).1 (getSystemThemePreference s) = v := by
  rw [getStoredTheme_fst, hg, hv]
  simp [jsOr, truthy, hne]

theorem jsOr_getStoredTheme_of_falsy (s : State)
    (h : s.storage.getThrows = true ∨ s.storage.item = none ∨ s.storage.item = some "") :
    jsOr (getStoredTheme s).1 (getSystemThemePreference s) = getSystemThemePreference s := by
  rw [getStoredTheme_fst]
  rcases h with h | h | h
  · rw [h]; rfl
  · rw [h]; cases s.storage.getThrows <;> rfl
  · rw [h]; cases s.storage.getThrows <;> rfl

theorem truthy_getStoredTheme_of_readable (s : State) (v : String)
    (hg : s.storage.getThrows = false) (hv : s.storage.item = some v) (hne : v ≠ "") :
    truthy (getStoredTheme s).1 = true := by
  rw [getStoredTheme_fst, hg, hv]
  simp [truthy, hne]

theorem truthy_getStoredTheme_of_falsy (s : State)
    (h : s.storage.getThrows = true ∨ s.storage.item = none ∨ s.storage.item = some "") :
    truthy (getStoredTheme s).1 = false := by
  rw [getStoredTheme_fst]
  rcases h with h | h | h
  · rw [h]; rfl
  · rw [h]; cases s.storage.getThrows <;> rfl
  · rw [h]; cases s.storage.getThrows <;> rfl

theorem systemThemeChangeListener_of_readable (m : Bool) (s : State) (v : String)
    (hg : s.storage.getThrows = false) (hv : s.storage.item = some v) (hne : v ≠ "") :
    systemThemeChangeListener m s = s := by
  rw [systemThemeChangeListener_eq, truthy_getStoredTheme_of_readable s v hg hv hne,
    getStoredTheme_snd, hg]
  rfl

theorem systemPreferenceChange_of_readable (m : Bool) (s : State) (v : String)
    (hg : s.storage.getThrows = false) (hv : s.storage.item = some v) (hne : v ≠ "") :
    (systemPreferenceChange m s).themeAttr = s.themeAttr ∧
    (systemPreferenceChange m s).metaThemeColor = s.metaThemeColor ∧
    (systemPreferenceChange m s).themeButton = s.themeButton ∧
    (systemPreferenceChange m s).storage = s.storage ∧
    (systemPreferenceChange m s).events = s.events := by
  unfold systemPreferenceChange
  cases hq : s.matchMedia with
  | none => exact ⟨rfl, rfl, rfl, rfl, rfl⟩
  | some q =>
    simp only
    split
    · rw [systemThemeChangeListener_of_readable m
        { s with matchMedia := some { q with isMatch := m } } v hg hv hne]
      exact ⟨rfl, rfl, rfl, rfl, rfl⟩
    · exact ⟨rfl, rfl, rfl, rfl, rfl⟩

theorem setTheme_light (s : State) :
    setTheme (JsValue.string "light") s = applyTheme "light" false s := by
  unfold setTheme
  rw [if_pos (by decide)]

/-! ## The theme attribute stays enumerated once it is -/

theorem getSystemThemePreference_isTheme (s : State) :
    IsTheme (some (getSystemThemePreference s)) := by
  unfold getSystemThemePreference IsTheme
  split
  · split
    · exact Or.inl rfl
    · exact Or.inr rfl
  · exact Or.inr rfl

theorem toggleTheme_isTheme (s : State) : IsTheme (toggleTheme s).themeAttr := by
  unfold toggleTheme
  simp only [applyTheme_themeAttr]
  unfold IsTheme
  split
  · exact Or.inr rfl
  · exact Or.inl rfl

theorem setTheme_isTheme (x : JsValue) (s : State) (h : IsTheme s.themeAttr) :
    IsTheme (setTheme x s).themeAttr := by
  unfold setTheme
  split
  · rename_i hc
    cases x with
    | string t =>
      simp only [applyTheme_themeAttr]
      simp only [themeValues, List.contains_eq_any_beq, List.any_cons, List.any_nil,
        Bool.or_false, Bool.or_eq_true, beq_iff_eq, JsValue.string.injEq] at hc
      rcases hc with hc | hc
      · exact Or.inl (by rw [hc])
      · exact Or.inr (by rw [hc])
    | _ => exact h
  · exact h

theorem resetToSystemTheme_isTheme (s : State) (h : IsTheme s.themeAttr) :
    IsTheme (resetToSystemTheme s).state.themeAttr := by
  unfold resetToSystemTheme
  split
  · exact h
  · simp only [applyTheme_themeAttr]
    exact getSystemThemePreference_isTheme _

theorem systemThemeChangeListener_isTheme (m : Bool) (s : State) (h : IsTheme s.themeAttr) :
    IsTheme (systemThemeChangeListener m s).themeAttr := by
  rw [systemThemeChangeListener_eq]
  split
  · rw [getStoredTheme_snd_themeAttr]; exact h
  · rw [applyTheme_themeAttr]
    cases m
    · exact Or.inr rfl
    · exact Or.inl rfl

theorem systemPreferenceChange_isTheme (m : Bool) (s : State) (h : IsTheme s.themeAttr) :
    IsTheme (systemPreferenceChange m s).themeAttr := by
  unfold systemPreferenceChange
  split
  · exact h
  · simp only
    split
    · exact systemThemeChangeListener_isTheme m _ h
    · exact h

theorem step_isTheme (op : Op) (s : State) (h : IsTheme s.themeAttr) :
    IsTheme (step op s).state.themeAttr := by
  cases op with
  | toggle => exact toggleTheme_isTheme s
  | setTheme x => exact setTheme_isTheme x s h
  | resetToSystemTheme => exact resetToSystemTheme_isTheme s h
  | systemChange m => exact systemPreferenceChange_isTheme m s h

theorem run_isTheme (ops : List Op) (s : State) (h : IsTheme s.themeAttr) :
    IsTheme (run ops s).themeAttr := by
  induction ops generalizing s with
  | nil => exact h
  | cons op rest ih =>
    simp only [run, List.foldl_cons]
    exact ih _ (step_isTheme op s h)

/-! ## C1: the theme resolved at initialisation -/

/-- C1, as stated, fails: with the empty string persisted in a working store
and a system that prefers dark, initialisation leaves the attribute at dark,
not at the persisted value; with light persisted in a store that throws on
read it leaves dark as well. -/
theorem initThemeSystem_counterexample :
    (emptyStringStoredPage.storage.item = some "" ∧
      emptyStringStoredPage.storage.working ∧
      (initThemeSystem emptyStringStoredPage).themeAttr = some "dark" ∧
      (initThemeSystem emptyStringStoredPage).themeAttr ≠ emptyStringStoredPage.storage.item) ∧
    (unreadableStorePage.storage.item = some "light" ∧
      (initThemeSystem unreadableStorePage).themeAttr = some "dark") := by
  decide

/-- C1, amended.  When the store can be read and holds a non-empty string,
initialisation leaves the theme attribute equal to that string; when the store
holds nothing, holds the empty string, or cannot be read, it leaves the theme
attribute equal to the system preference. -/
theorem initThemeSystem_resolves_theme (s : State) :
    (s.storage.getThrows = false → ∀ v : String, s.storage.item = some v → v ≠ "" →
      (initThemeSystem s).themeAttr = some v) ∧
    (s.storage.getThrows = true ∨ s.storage.item = none ∨ s.storage.item = some "" →
      (initThemeSystem s).themeAttr = some (getSystemThemePreference s)) := by
  constructor
  · intro hg v hv hne
    rw [initThemeSystem_themeAttr, jsOr_getStoredTheme_of_readable s v hg hv hne]
  · intro h
    rw [initThemeSystem_themeAttr, jsOr_getStoredTheme_of_falsy s h]

/-- C1 witness: persisted light with system dark yields light, and no persisted
value with system dark yields dark. -/
theorem initThemeSystem_resolves_theme_witness :
    (getSystemThemePreference lightStoredPage = "dark" ∧
      (initThemeSystem lightStoredPage).themeAttr = some "light") ∧
    (systemDarkPage.storage.item = none ∧
      (initThemeSystem systemDarkPage).themeAttr = some "dark") :=
  ⟨⟨by decide,
      (initThemeSystem_resolves_theme lightStoredPage).1 (by decide) "light" (by decide)
        (by decide)⟩,
    ⟨by decide,
      (initThemeSystem_resolves_theme systemDarkPage).2 (Or.inr (Or.inl (by decide)))⟩⟩

/-! ## C2: the theme attribute stays enumerated -/

/-- C2, as stated, fails: with purple persisted, initialisation leaves the
theme attribute at purple, which is neither dark nor light, and an invalid
`setTheme` or an ignored system signal afterwards keeps it there. -/
theorem theme_invariant_counterexample :
    (initThemeSystem purpleStoredPage).themeAttr = some "purple" ∧
    ¬ IsTheme (initThemeSystem purpleStoredPage).themeAttr ∧
    ¬ IsTheme (run [Op.setTheme (JsValue.string "blue"), Op.systemChange true]
      (initThemeSystem purpleStoredPage)).themeAttr := by
  decide

/-- C2, amended.  When the store at initialisation cannot be read, holds
nothing, or holds the empty string, dark or light, then after initialisation
and after any later sequence of toggles, `setTheme` calls, resets and system
preference changes the theme attribute is dark or light. -/
theorem theme_invariant (s : State) (ops : List Op)
    (h : s.storage.getThrows = true ∨ s.storage.item = none ∨ s.storage.item = some "" ∨
      s.storage.item = some "dark" ∨ s.storage.item = some "light") :
    IsTheme (run ops (initThemeSystem s)).themeAttr := by
  apply run_isTheme
  rw [initThemeSystem_themeAttr]
  have hsys := getSystemThemePreference_isTheme s
  rcases h with h | h | h | h | h
  · rw [jsOr_getStoredTheme_of_falsy s (Or.inl h)]; exact hsys
  · rw [jsOr_getStoredTheme_of_falsy s (Or.inr (Or.inl h))]; exact hsys
  · rw [jsOr_getStoredTheme_of_falsy s (Or.inr (Or.inr h))]; exact hsys
  · cases hg : s.storage.getThrows
    · rw [jsOr_getStoredTheme_of_readable s "dark" hg h (by decide)]; exact Or.inl rfl
    · rw [jsOr_getStoredTheme_of_falsy s (Or.inl hg)]; exact hsys
  · cases hg : s.storage.getThrows
    · rw [jsOr_getStoredTheme_of_readable s "light" hg h (by decide)]; exact Or.inr rfl
    · rw [jsOr_getStoredTheme_of_falsy s (Or.inl hg)]; exact hsys

/-- C2 witness: a fresh page, then a toggle, an invalid and a valid `setTheme`,
a reset and a system change. -/
theorem theme_invariant_witness :
    freshPage.storage.item = none ∧
    IsTheme (run [Op.toggle, Op.setTheme (JsValue.string "purple"),
      Op.setTheme (JsValue.string "dark"), Op.resetToSystemTheme, Op.systemChange true]
      (initThemeSystem freshPage)).themeAttr :=
  ⟨by decide, theme_invariant freshPage _ (Or.inr (Or.inl (by decide)))⟩

/-! ## C3: reset followed by a system change -/

/-- C3, evaluated on the code: on the page as initialised (working store,
system preference light) `resetToSystemTheme` completes, but the apply it ends
with writes light back into the store; the following system change to dark is
therefore ignored and the theme attribute stays light. -/
theorem resetToSystemTheme_then_system_change_keeps_theme :
    (initThemeSystem freshPage).storage.working ∧
    (initThemeSystem freshPage).changeListener = true ∧
    (resetToSystemTheme (initThemeSystem freshPage)).error = none ∧
    (resetToSystemTheme (initThemeSystem freshPage)).state.storage.item = some "light" ∧
    getSystemThemePreference
      (systemPreferenceChange true (resetToSystemTheme (initThemeSystem freshPage)).state)
      = "dark" ∧
    (systemPreferenceChange true
      (resetToSystemTheme (initThemeSystem freshPage)).state).themeAttr = some "light" := by
  decide

/-! ## C4: toggling twice -/

/-- C4, as stated, fails: on a page with no theme attribute two toggles leave
the attribute at light, not absent; a non-enumerated attribute ends at light
as well. -/
theorem toggle_twice_counterexample :
    freshPage.themeAttr = none ∧
    (toggleTheme (toggleTheme freshPage)).themeAttr = some "light" ∧
    (toggleTheme (toggleTheme freshPage)).themeAttr ≠ freshPage.themeAttr ∧
    (toggleTheme (toggleTheme { freshPage with themeAttr := some "purple" })).themeAttr
      = some "light" := by
  decide

/-- C4, amended.  When the theme attribute is dark or light, toggling twice
restores it. -/
theorem toggle_twice_restores (s : State) (h : IsTheme s.themeAttr) :
    (toggleTheme (toggleTheme s)).themeAttr = s.themeAttr := by
  unfold toggleTheme
  simp only [applyTheme_themeAttr]
  rcases h with h | h <;> rw [h] <;> decide

/-- C4 witness: two toggles on the page as initialised. -/
theorem toggle_twice_restores_witness :
    IsTheme (initThemeSystem freshPage).themeAttr ∧
    (toggleTheme (toggleTheme (initThemeSystem freshPage))).themeAttr
      = (initThemeSystem freshPage).themeAttr :=
  ⟨by decide, toggle_twice_restores (initThemeSystem freshPage) (by decide)⟩

/-! ## C5: a store that throws on every access -/

/-- C5, evaluated on the code: with a store that throws on every access,
initialisation, the system listener and the toggle complete and apply their
theme, but `resetToSystemTheme` lets the error of `removeItem` escape and
applies nothing: the system prefers dark and the attribute stays light. -/
theorem resetToSystemTheme_raises_on_broken_store :
    brokenStoreLightPage.storage.broken ∧
    getSystemThemePreference brokenStoreLightPage = "dark" ∧
    brokenStoreLightPage.themeAttr = some "light" ∧
    (resetToSystemTheme brokenStoreLightPage).error = some "SecurityError" ∧
    (resetToSystemTheme brokenStoreLightPage).state.themeAttr = some "light" ∧
    (resetToSystemTheme brokenStoreLightPage).state = brokenStoreLightPage := by
  decide

/-! ## C6: who creates the persisted preference -/

/-- C6, evaluated on the code: on a fresh page with an empty working store,
initialisation leaves light persisted; on a page with an empty working store
and the listener registered, a system change to dark leaves dark persisted. -/
theorem initThemeSystem_persists_system_theme :
    (freshPage.storage.item = none ∧
      (initThemeSystem freshPage).storage.item = some "light") ∧
    (clearedStorePage.storage.item = none ∧
      clearedStorePage.changeListener = true ∧
      (systemPreferenceChange true clearedStorePage).storage.item = some "dark") := by
  decide

/-! ## C7: invalid input to `setTheme` -/

/-- C7.  For every value other than the strings dark and light and every state,
`setTheme` returns the state it was given: the theme attribute, the meta theme
colour, the ARIA attributes of the button and the persisted preference are
unchanged, and no change notification is added. -/
theorem setTheme_invalid_is_noop (x : JsValue) (s : State)
    (hd : x ≠ JsValue.string "dark") (hl : x ≠ JsValue.string "light") :
    setTheme x s = s := by
  have h : themeValues.contains x = false := by
    simp only [themeValues, DARK, LIGHT, List.contains_eq_any_beq, List.any_cons, List.any_nil,
      Bool.or_false, Bool.or_eq_false_iff, beq_eq_false_iff_ne, ne_eq]
    exact ⟨hd, hl⟩
  simp only [setTheme, h, Bool.false_eq_true, if_false]

/-- C7 witness: `setTheme('purple')` on the page as initialised. -/
theorem setTheme_invalid_is_noop_witness :
    JsValue.string "purple" ≠ JsValue.string "dark" ∧
    JsValue.string "purple" ≠ JsValue.string "light" ∧
    setTheme (JsValue.string "purple") (initThemeSystem freshPage) = initThemeSystem freshPage :=
  ⟨by decide, by decide,
    setTheme_invalid_is_noop (JsValue.string "purple") (initThemeSystem freshPage)
      (by decide) (by decide)⟩

/-! ## C8: an explicit choice locks out the system signal -/

/-- C8, as stated, fails in its general clause: with the empty string persisted
in a working store, and with light persisted in a store that throws on read,
a persisted value exists and yet the listener applies the new system value. -/
theorem system_signal_lockout_counterexample :
    (emptyStringStoredPage.storage.item ≠ none ∧
      emptyStringStoredPage.storage.working ∧
      emptyStringStoredPage.themeAttr = some "light" ∧
      (systemPreferenceChange true emptyStringStoredPage).themeAttr = some "dark") ∧
    (unreadableStorePage.storage.item = some "light" ∧
      unreadableStorePage.themeAttr = some "light" ∧
      (systemPreferenceChange true unreadableStorePage).themeAttr = some "dark") := by
  decide

/-- C8, amended.  On a working store, after `setTheme('light')` a system change
to dark leaves the theme attribute at light and the meta colour, the ARIA
state, the store and the notifications as `setTheme` left them.  More
generally the listener changes nothing when the store can be read and holds a
non-empty string, and applies the new system value when the store holds
nothing, holds the empty string, or cannot be read. -/
theorem system_signal_lockout (s : State) (m : Bool) :
    (s.storage.working →
      (setTheme (JsValue.string "light") s).themeAttr = some "light" ∧
      (systemPreferenceChange true (setTheme (JsValue.string "light") s)).themeAttr
        = some "light" ∧
      (systemPreferenceChange true (setTheme (JsValue.string "light") s)).metaThemeColor
        = (setTheme (JsValue.string "light") s).metaThemeColor ∧
      (systemPreferenceChange true (setTheme (JsValue.string "light") s)).themeButton
        = (setTheme (JsValue.string "light") s).themeButton ∧
      (systemPreferenceChange true (setTheme (JsValue.string "light") s)).storage
        = (setTheme (JsValue.string "light") s).storage ∧
      (setTheme (JsValue.string "light") s).storage.item = some "light" ∧
      (systemPreferenceChange true (setTheme (JsValue.string "light") s)).events
        = (setTheme (JsValue.string "light") s).events) ∧
    (s.storage.getThrows = false → ∀ v : String, s.storage.item = some v → v ≠ "" →
      systemThemeChangeListener m s = s) ∧
    (s.storage.getThrows = true ∨ s.storage.item = none ∨ s.storage.item = some "" →
      (systemThemeChangeListener m s).themeAttr = some (if m then DARK else LIGHT) ∧
      (systemThemeChangeListener m s).events = s.events ++ [if m then DARK else LIGHT]) := by
  refine ⟨fun hw => ?_, fun hg v hv hne => systemThemeChangeListener_of_readable m s v hg hv hne,
    fun h => ?_⟩
  · obtain ⟨hg, hs, _⟩ := hw
    have hst : (setTheme (JsValue.string "light") s).storage
        = { s.storage with item := some "light" } := by
      rw [setTheme_light, applyTheme_storage, hs]; rfl
    have hg1 : (setTheme (JsValue.string "light") s).storage.getThrows = false := by
      rw [hst]; exact hg
    have hv1 : (setTheme (JsValue.string "light") s).storage.item = some "light" := by
      rw [hst]
    have hattr : (setTheme (JsValue.string "light") s).themeAttr = some "light" := by
      rw [setTheme_light, applyTheme_themeAttr]
    obtain ⟨h1, h2, h3, h4, h5⟩ :=
      systemPreferenceChange_of_readable true (setTheme (JsValue.string "light") s) "light"
        hg1 hv1 (by decide)
    exact ⟨hattr, h1.trans hattr, h2, h3, h4, hv1, h5⟩
  · rw [systemThemeChangeListener_eq, truthy_getStoredTheme_of_falsy s h]
    simp only [Bool.false_eq_true, if_false]
    rw [applyTheme_themeAttr, applyTheme_events, getStoredTheme_snd_events]
    exact ⟨rfl, rfl⟩

/-- C8 witness: on the page as initialised, `setTheme('light')` followed by a
system change to dark leaves light applied and the listener changes nothing;
on a page with an empty store the listener applies dark. -/
theorem system_signal_lockout_witness :
    (initThemeSystem freshPage).storage.working ∧
    (systemPreferenceChange true
        (setTheme (JsValue.string "light") (initThemeSystem freshPage))).themeAttr
      = some "light" ∧
    systemThemeChangeListener true (initThemeSystem freshPage) = initThemeSystem freshPage ∧
    (systemThemeChangeListener true clearedStorePage).themeAttr = some "dark" :=
  ⟨by decide,
    ((system_signal_lockout (initThemeSystem freshPage) true).1 (by decide)).2.1,
    (system_signal_lockout (initThemeSystem freshPage) true).2.1 (by decide) "light"
      (by decide) (by decide),
    ((system_signal_lockout clearedStorePage true).2.2 (Or.inr (Or.inl (by decide)))).1⟩

/-! ## C9: the change notification -/

/-- C9.  For every theme, every value of `skipTransition` and every state,
`applyTheme` appends exactly one change notification, whose payload is the
applied theme and equals the theme attribute after the call.  The same holds
for the apply made by initialisation (with the theme it resolved) and for the
apply made by the system listener (which emits nothing when it does not
apply). -/
theorem applyTheme_emits_one_notification (t : String) (skip : Bool) (s : State) :
    ((applyTheme t skip s).events = s.events ++ [t] ∧
      (applyTheme t skip s).themeAttr = some t) ∧
    (∃ t0, (initThemeSystem s).events = s.events ++ [t0] ∧
      (initThemeSystem s).themeAttr = some t0) ∧
    (∀ m : Bool,
      (systemThemeChangeListener m s).events =
          (if truthy (getStoredTheme s).1 then s.events
            else s.events ++ [if m then DARK else LIGHT]) ∧
      (systemThemeChangeListener m s).themeAttr =
          (if truthy (getStoredTheme s).1 then s.themeAttr
            else some (if m then DARK else LIGHT))) := by
  refine ⟨⟨applyTheme_events t skip s, applyTheme_themeAttr t skip s⟩,
    ⟨_, initThemeSystem_events s, initThemeSystem_themeAttr s⟩, fun m => ?_⟩
  rw [systemThemeChangeListener_eq]
  cases truthy (getStoredTheme s).1
  · simp [applyTheme_events, applyTheme_themeAttr, getStoredTheme_snd_events]
  · simp [getStoredTheme_snd_events, getStoredTheme_snd_themeAttr]

/-! ## C10: a failing write does not block the theme change -/

/-- C10.  For every theme and every state whose store throws on write,
`applyTheme t false` still sets the theme attribute to `t`; the meta colour,
the ARIA state of the button and the notification are the same as on the
same state with a store that accepts the write; the store itself, and so the
persisted preference, is left exactly as it was. -/
theorem applyTheme_survives_write_failure (t : String) (s : State)
    (h : s.storage.setThrows = true) :
    (applyTheme t false s).themeAttr = some t ∧
    (applyTheme t false s).metaThemeColor =
      (applyTheme t false { s with storage := { s.storage with setThrows := false } }).metaThemeColor ∧
    (applyTheme t false s).themeButton =
      (applyTheme t false { s with storage := { s.storage with setThrows := false } }).themeButton ∧
    (applyTheme t false s).events =
      (applyTheme t false { s with storage := { s.storage with setThrows := false } }).events ∧
    (applyTheme t false s).storage = s.storage ∧
    (applyTheme t false { s with storage := { s.storage with setThrows := false } }).storage.item
      = some t := by
  refine ⟨applyTheme_themeAttr t false s, ?_, ?_, ?_, ?_, ?_⟩
  · cases hm : s.metaThemeColor <;> cases hb : s.themeButton <;>
      simp [applyTheme, storeTheme, updateThemeButtonAria, updateMetaThemeColor,
        Storage.setItem, metaColorFor, hm, hb, h]
  · cases hm : s.metaThemeColor <;> cases hb : s.themeButton <;>
      simp [applyTheme, storeTheme, updateThemeButtonAria, updateMetaThemeColor,
        Storage.setItem, metaColorFor, hm, hb, h]
  · rw [applyTheme_events, applyTheme_events]
  · rw [applyTheme_storage, h]; rfl
  · rw [applyTheme_storage]; rfl

/-- C10 witness: applying dark on a page whose store rejects the write. -/
theorem applyTheme_survives_write_failure_witness :
    fullStorePage.storage.setThrows = true ∧
    (applyTheme "dark" false fullStorePage).themeAttr = some "dark" ∧
    (applyTheme "dark" false fullStorePage).storage.item = some "light" :=
  have h := applyTheme_survives_write_failure "dark" fullStorePage (by decide)
  ⟨by decide, h.1, by rw [h.2.2.2.2.1]; rfl⟩

end ThemeSystem
